import Mathlib

/-!
Shallow embedding of the tablet-mode repository (src/tabletmode/cli.py and
src/tabletmode/daemon.py) and proofs about its mode-transition behaviour.

External processes are modelled by an environment that assigns an exit
status to every command vector. Commands issued via subprocess check_call
or run are recorded in a trace of argument vectors; subprocesses spawned
by the daemon via Popen are recorded as spawn and wait events.

The configuration loader (tabletmode.config.load_config) is not part of
the embedded sources; the mapping it returns is passed in as a parameter
of type Config.
-/

namespace Tabletmode

/-- Python-like values, as found in the configuration mapping. -/
inductive PyVal where
  | none
  | bool (b : Bool)
  | int (i : Int)
  | str (s : String)
  | list (xs : List String)
  | tuple (xs : List String)
deriving DecidableEq, Repr

/-- Python truthiness of a configuration value. -/
def truthy : PyVal → Bool
  | .none => false
  | .bool b => b
  | .int i => i != 0
  | .str s => !s.isEmpty
  | .list xs => !xs.isEmpty
  | .tuple xs => !xs.isEmpty

/-- The element sequence of a list or tuple value; empty for scalars. -/
def pyElems : PyVal → List String
  | .list xs => xs
  | .tuple xs => xs
  | _ => []

/-- Python str of a bool: True or False. -/
def pyBoolStr (b : Bool) : String := if b then "True" else "False"

/-- Python str.lower, character by character. -/
def pyLower (s : String) : String := ⟨s.data.map Char.toLower⟩

/-- Configuration mapping, as returned by load_config. -/
abbrev Config := String → Option PyVal

/-- Python dict.get with a default value. -/
def dictGet (cfg : Config) (k : String) (d : PyVal) : PyVal :=
  match cfg k with
  | .some v => v
  | .none => d

/-- Overwrite one key of a configuration mapping. -/
def dictSet (cfg : Config) (k : String) (v : PyVal) : Config :=
  fun q => if q = k then .some v else cfg q

/-- Exit statuses of external commands: the OS environment. -/
abbrev Env := List String → Nat

/-- Python exceptions observable by the embedded code. -/
inductive PyErr where
  | calledProcessError (returncode : Nat) (cmd : List String)
  | osError (msg : String)
deriving DecidableEq, Repr

/-- subprocess.check_call: raises CalledProcessError on a non-zero exit. -/
def check_call (env : Env) (command : List String) : Except PyErr Unit :=
  if env command = 0 then .ok ()
  else .error (.calledProcessError (env command) command)

/-- Result of subprocess.run. -/
structure CompletedProcess where
  args : List String
  returncode : Nat
deriving DecidableEq, Repr

namespace cli

def LAPTOP_MODE_SERVICE : String := "laptop-mode.service"

def TABLET_MODE_SERVICE : String := "tablet-mode.service"

def SUDO : String := "/usr/bin/sudo"

/-- cli.systemctl: runs systemctl, optionally via sudo, catching
CalledProcessError and turning the exit status into a boolean. -/
def systemctl (env : Env) (action unit : String) (root : Bool) (sudoPath : String) :
    Except PyErr Bool × List (List String) :=
  let command := (if root then [sudoPath] else []) ++ ["systemctl", action, unit]
  match check_call env command with
  | .ok _ => (.ok true, [command])
  | .error (.calledProcessError _ _) => (.ok false, [command])
  | .error e => (.error e, [command])

/-- cli.set_osk_state: gsettings set of the screen-keyboard-enabled key,
with the boolean serialized via str(state).lower(). -/
def set_osk_state (env : Env) (state : Bool) :
    Except PyErr Bool × List (List String) :=
  let command := ["/usr/bin/gsettings", "set", "org.gnome.desktop.a11y.applications",
    "screen-keyboard-enabled", pyLower (pyBoolStr state)]
  match check_call env command with
  | .ok _ => (.ok true, [command])
  | .error (.calledProcessError _ _) => (.ok false, [command])
  | .error e => (.error e, [command])

/-- cli.notify_send: subprocess.run with check=False, never raises. -/
def notify_send (env : Env) (summary : String) (body : Option String) :
    CompletedProcess × List (List String) :=
  let command := ["/usr/bin/notify-send", summary] ++
    (match body with
     | .some b => [b]
     | .none => [])
  (⟨command, env command⟩, [command])

/-- cli.notify_laptop_mode. -/
def notify_laptop_mode (env : Env) : CompletedProcess × List (List String) :=
  notify_send env "Laptop mode." (.some "The system is now in laptop mode.")

/-- cli.notify_tablet_mode. -/
def notify_tablet_mode (env : Env) : CompletedProcess × List (List String) :=
  notify_send env "Tablet mode." (.some "The system is now in tablet mode.")

/-- cli.default_mode: stop laptop service, stop tablet service, disable
the on-screen keyboard, optionally notify. -/
def default_mode (env : Env) (notify : Bool) (sudoPath : String) :
    Except PyErr Unit × List (List String) :=
  let r1 := systemctl env "stop" LAPTOP_MODE_SERVICE true sudoPath
  match r1.1 with
  | .error e => (.error e, r1.2)
  | .ok _ =>
  let r2 := systemctl env "stop" TABLET_MODE_SERVICE true sudoPath
  match r2.1 with
  | .error e => (.error e, r1.2 ++ r2.2)
  | .ok _ =>
  let r3 := set_osk_state env false
  match r3.1 with
  | .error e => (.error e, r1.2 ++ r2.2 ++ r3.2)
  | .ok _ =>
  let r4 := if notify then
      (notify_send env "Default mode." (.some "The system is now in default mode.")).2
    else []
  (.ok (), r1.2 ++ r2.2 ++ r3.2 ++ r4)

/-- cli.laptop_mode: stop tablet service, start laptop service, disable
the on-screen keyboard, optionally notify. -/
def laptop_mode (env : Env) (notify : Bool) (sudoPath : String) :
    Except PyErr Unit × List (List String) :=
  let r1 := systemctl env "stop" TABLET_MODE_SERVICE true sudoPath
  match r1.1 with
  | .error e => (.error e, r1.2)
  | .ok _ =>
  let r2 := systemctl env "start" LAPTOP_MODE_SERVICE true sudoPath
  match r2.1 with
  | .error e => (.error e, r1.2 ++ r2.2)
  | .ok _ =>
  let r3 := set_osk_state env false
  match r3.1 with
  | .error e => (.error e, r1.2 ++ r2.2 ++ r3.2)
  | .ok _ =>
  let r4 := if notify then (notify_laptop_mode env).2 else []
  (.ok (), r1.2 ++ r2.2 ++ r3.2 ++ r4)

/-- cli.tablet_mode: stop laptop service, start tablet service, enable
the on-screen keyboard, optionally notify. -/
def tablet_mode (env : Env) (notify : Bool) (sudoPath : String) :
    Except PyErr Unit × List (List String) :=
  let r1 := systemctl env "stop" LAPTOP_MODE_SERVICE true sudoPath
  match r1.1 with
  | .error e => (.error e, r1.2)
  | .ok _ =>
  let r2 := systemctl env "start" TABLET_MODE_SERVICE true sudoPath
  match r2.1 with
  | .error e => (.error e, r1.2 ++ r2.2)
  | .ok _ =>
  let r3 := set_osk_state env true
  match r3.1 with
  | .error e => (.error e, r1.2 ++ r2.2 ++ r3.2)
  | .ok _ =>
  let r4 := if notify then (notify_tablet_mode env).2 else []
  (.ok (), r1.2 ++ r2.2 ++ r3.2 ++ r4)

/-- cli.toggle_mode: query the tablet service status (root left false,
default sudo), then dispatch to laptop_mode or tablet_mode. -/
def toggle_mode (env : Env) (notify : Bool) (sudoPath : String) :
    Except PyErr Unit × List (List String) :=
  let r0 := systemctl env "status" TABLET_MODE_SERVICE false SUDO
  match r0.1 with
  | .error e => (.error e, r0.2)
  | .ok b =>
    if b then
      let r := laptop_mode env notify sudoPath
      (r.1, r0.2 ++ r.2)
    else
      let r := tablet_mode env notify sudoPath
      (r.1, r0.2 ++ r.2)

/-- Parsed CLI arguments of the mode setter. -/
structure Args where
  mode : Option String
  notify : Bool
deriving DecidableEq, Repr

/-- Outcome of cli.main: either a dispatched mode run with its trace, or
the usage message printed to stderr. -/
inductive MainOut where
  | ran (result : Except PyErr Unit) (trace : List (List String))
  | usage (message : String)
deriving Repr

/-- A configuration value used where Python would use it as a path string. -/
def pyToStr : PyVal → String
  | .str s => s
  | .bool b => pyBoolStr b
  | .int i => toString i
  | .none => "None"
  | .list _ => ""
  | .tuple _ => ""

/-- The elif chain of cli.main dispatching on the mode subcommand. -/
def dispatchMode (env : Env) (notify : Bool) (sudoPath : String) (mode : Option String) :
    MainOut :=
  match mode with
  | .some "toggle" =>
    let r := toggle_mode env notify sudoPath
    .ran r.1 r.2
  | .some "default" =>
    let r := default_mode env notify sudoPath
    .ran r.1 r.2
  | .some "laptop" =>
    let r := laptop_mode env notify sudoPath
    .ran r.1 r.2
  | .some "tablet" =>
    let r := tablet_mode env notify sudoPath
    .ran r.1 r.2
  | _ => .usage "Must specify a mode."

/-- cli.main: notify is config notify (default False) or-ed with the CLI
flag, sudo comes from the configuration, then dispatch on the mode. -/
def main (env : Env) (cfg : Config) (args : Args) : MainOut :=
  let notify := truthy (dictGet cfg "notify" (.bool false)) || args.notify
  let sudoPath := pyToStr (dictGet cfg "sudo" (.str SUDO))
  dispatchMode env notify sudoPath args.mode

/-- The trace of commands issued by a cli.main outcome. -/
def traceOf : MainOut → List (List String)
  | .ran _ t => t
  | .usage _ => []

end cli

namespace daemon

def EVTEST : String := "/usr/bin/evtest"

def GSETTINGS : String := "/usr/bin/gsettings"

def GNOME_OSK : String := "set org.gnome.desktop.a11y.applications screen-keyboard-enabled"

/-- A subprocess handle returned by Popen, carrying its argument vector. -/
structure PopenHandle where
  args : List String
deriving DecidableEq, Repr

/-- daemon.set_osk_state: Popen of GSETTINGS with a single combined
argument string built by an f-string from GNOME_OSK and the serialized
boolean. -/
def set_osk_state (mode : String) : PopenHandle :=
  ⟨[GSETTINGS, GNOME_OSK ++ " " ++ pyLower (pyBoolStr (mode == "tablet"))]⟩

/-- daemon.disable_device: Popen of evtest grabbing the device. -/
def disable_device (device : String) : PopenHandle :=
  ⟨[EVTEST, "--grab", device]⟩

/-- daemon.get_devices: the configured value for the mode key, with falsy
values replaced by the empty tuple; the second component is the
informational log message emitted when the result is falsy. -/
def get_devices (cfg : Config) (mode : String) : PyVal × Option String :=
  let devices :=
    match cfg mode with
    | .some v => v
    | .none => PyVal.none
  let devices := if truthy devices then devices else PyVal.tuple []
  if truthy devices then (devices, Option.none)
  else (devices, Option.some "No devices configured to disable.")

/-- Events of the daemon subprocess lifecycle. -/
inductive DEvent where
  | spawn (args : List String)
  | wait (args : List String)
deriving DecidableEq, Repr

/-- daemon.set_mode: spawn the keyboard-toggle subprocess, then one grab
subprocess per configured device, then wait on every spawned subprocess
in order. -/
def set_mode (cfg : Config) (mode : String) : List DEvent :=
  let devices := pyElems (get_devices cfg mode).1
  let subprocesses := set_osk_state mode :: devices.map disable_device
  subprocesses.map (fun p => DEvent.spawn p.args) ++
    subprocesses.map (fun p => DEvent.wait p.args)

/-- Argument vectors of the spawn events of a trace, in order. -/
def spawnedArgs (t : List DEvent) : List (List String) :=
  t.filterMap (fun e =>
    match e with
    | .spawn a => Option.some a
    | .wait _ => Option.none)

/-- Argument vectors of the wait events of a trace, in order. -/
def waitedArgs (t : List DEvent) : List (List String) :=
  t.filterMap (fun e =>
    match e with
    | .wait a => Option.some a
    | .spawn _ => Option.none)

end daemon

/-! Command vectors and traces used in the statements below, written out
explicitly so the theorems can be read against the Python sources. -/

/-- The sudo-prefixed systemctl stop command for a unit. -/
def stopCmd (sp unitName : String) : List String :=
  [sp, "systemctl", "stop", unitName]

/-- The sudo-prefixed systemctl start command for a unit. -/
def startCmd (sp unitName : String) : List String :=
  [sp, "systemctl", "start", unitName]

/-- The unprefixed status query on the tablet-mode service issued by
toggle_mode. -/
def statusQuery : List String :=
  ["systemctl", "status", cli.TABLET_MODE_SERVICE]

/-- The gsettings command issued by cli.set_osk_state, with the boolean
value as its own final argument. -/
def oskCommand (state : Bool) : List String :=
  ["/usr/bin/gsettings", "set", "org.gnome.desktop.a11y.applications",
   "screen-keyboard-enabled", if state then "true" else "false"]

/-- A notify-send command with summary and body. -/
def notifyCmd (summary body : String) : List String :=
  ["/usr/bin/notify-send", summary, body]

/-- A concrete configuration with one tablet device, used as sample
input. -/
def cfgA : Config := fun k =>
  if k = "tablet" then Option.some (PyVal.list ["/dev/input/event3"])
  else Option.none

/-- A concrete configuration mapping the tablet key to an explicitly empty
device list, used as sample input. -/
def cfgB : Config := fun k =>
  if k = "tablet" then Option.some (PyVal.list [])
  else Option.none

/-- The full command trace of cli.default_mode. -/
def defaultTrace (notify : Bool) (sp : String) : List (List String) :=
  [stopCmd sp cli.LAPTOP_MODE_SERVICE, stopCmd sp cli.TABLET_MODE_SERVICE,
   oskCommand false] ++
  (if notify then [notifyCmd "Default mode." "The system is now in default mode."]
   else [])

/-- The full command trace of cli.laptop_mode. -/
def laptopTrace (notify : Bool) (sp : String) : List (List String) :=
  [stopCmd sp cli.TABLET_MODE_SERVICE, startCmd sp cli.LAPTOP_MODE_SERVICE,
   oskCommand false] ++
  (if notify then [notifyCmd "Laptop mode." "The system is now in laptop mode."]
   else [])

/-- The full command trace of cli.tablet_mode. -/
def tabletTrace (notify : Bool) (sp : String) : List (List String) :=
  [stopCmd sp cli.LAPTOP_MODE_SERVICE, startCmd sp cli.TABLET_MODE_SERVICE,
   oskCommand true] ++
  (if notify then [notifyCmd "Tablet mode." "The system is now in tablet mode."]
   else [])

/-- One command is issued strictly before another in a trace. -/
def stopBeforeStart (t : List (List String)) (stopC startC : List String) : Prop :=
  ∃ i j : Nat, i < j ∧ t[i]? = Option.some stopC ∧ t[j]? = Option.some startC

/-- Detects a systemctl start call in a sudo-prefixed command vector: the
action is the third argument. -/
def isStartCall (cmd : List String) : Bool :=
  cmd[2]? == Option.some "start"

/-- Detects any systemctl invocation, prefixed or not. -/
def isSystemctlCall (cmd : List String) : Bool :=
  cmd[1]? == Option.some "systemctl" || cmd[0]? == Option.some "systemctl"

/-! Normal forms of the embedded cli functions. -/

theorem osk_value (b : Bool) :
    pyLower (pyBoolStr b) = (if b then "true" else "false") := by
  cases b <;> rfl

theorem systemctl_norm (env : Env) (a u : String) (r : Bool) (sp : String) :
    cli.systemctl env a u r sp =
      ((if env ((if r then [sp] else []) ++ ["systemctl", a, u]) = 0
        then Except.ok true else Except.ok false),
       [(if r then [sp] else []) ++ ["systemctl", a, u]]) := by
  unfold cli.systemctl check_call
  by_cases h : env ((if r then [sp] else []) ++ ["systemctl", a, u]) = 0 <;> simp [h]

theorem set_osk_norm (env : Env) (st : Bool) :
    cli.set_osk_state env st =
      ((if env (oskCommand st) = 0 then Except.ok true else Except.ok false),
       [oskCommand st]) := by
  unfold cli.set_osk_state check_call oskCommand
  rw [osk_value]
  by_cases h : env ["/usr/bin/gsettings", "set", "org.gnome.desktop.a11y.applications",
    "screen-keyboard-enabled", if st then "true" else "false"] = 0 <;> simp [h]

theorem default_mode_norm (env : Env) (n : Bool) (sp : String) :
    cli.default_mode env n sp = (Except.ok (), defaultTrace n sp) := by
  by_cases h1 : env [sp, "systemctl", "stop", cli.LAPTOP_MODE_SERVICE] = 0 <;>
  by_cases h2 : env [sp, "systemctl", "stop", cli.TABLET_MODE_SERVICE] = 0 <;>
  by_cases h3 : env (oskCommand false) = 0 <;>
  simp [cli.default_mode, systemctl_norm, set_osk_norm, defaultTrace, stopCmd,
    notifyCmd, cli.notify_send, h1, h2, h3]

theorem laptop_mode_norm (env : Env) (n : Bool) (sp : String) :
    cli.laptop_mode env n sp = (Except.ok (), laptopTrace n sp) := by
  by_cases h1 : env [sp, "systemctl", "stop", cli.TABLET_MODE_SERVICE] = 0 <;>
  by_cases h2 : env [sp, "systemctl", "start", cli.LAPTOP_MODE_SERVICE] = 0 <;>
  by_cases h3 : env (oskCommand false) = 0 <;>
  simp [cli.laptop_mode, systemctl_norm, set_osk_norm, laptopTrace, stopCmd,
    startCmd, notifyCmd, cli.notify_laptop_mode, cli.notify_send, h1, h2, h3]

theorem tablet_mode_norm (env : Env) (n : Bool) (sp : String) :
    cli.tablet_mode env n sp = (Except.ok (), tabletTrace n sp) := by
  by_cases h1 : env [sp, "systemctl", "stop", cli.LAPTOP_MODE_SERVICE] = 0 <;>
  by_cases h2 : env [sp, "systemctl", "start", cli.TABLET_MODE_SERVICE] = 0 <;>
  by_cases h3 : env (oskCommand true) = 0 <;>
  simp [cli.tablet_mode, systemctl_norm, set_osk_norm, tabletTrace, stopCmd,
    startCmd, notifyCmd, cli.notify_tablet_mode, cli.notify_send, h1, h2, h3]

theorem toggle_mode_norm (env : Env) (n : Bool) (sp : String) :
    cli.toggle_mode env n sp =
      (Except.ok (),
       statusQuery ::
         (if env statusQuery = 0 then laptopTrace n sp else tabletTrace n sp)) := by
  by_cases h0 : env ["systemctl", "status", cli.TABLET_MODE_SERVICE] = 0 <;>
  simp [cli.toggle_mode, systemctl_norm, laptop_mode_norm, tablet_mode_norm,
    statusQuery, h0]

/-- C1: in all four mode transition functions, whenever both a stop of the
opposing service and a start of the target service are issued, the stop is
issued before the start: laptop_mode stops the tablet service before
starting the laptop service, tablet_mode stops the laptop service before
starting the tablet service, toggle_mode does the same in whichever branch
it takes, and default_mode issues no start call at all. -/
theorem claim_C1 (env : Env) (n : Bool) (sp : String) :
    stopBeforeStart (cli.laptop_mode env n sp).2
      (stopCmd sp cli.TABLET_MODE_SERVICE) (startCmd sp cli.LAPTOP_MODE_SERVICE)
    ∧ stopBeforeStart (cli.tablet_mode env n sp).2
      (stopCmd sp cli.LAPTOP_MODE_SERVICE) (startCmd sp cli.TABLET_MODE_SERVICE)
    ∧ (if env statusQuery = 0
       then stopBeforeStart (cli.toggle_mode env n sp).2
         (stopCmd sp cli.TABLET_MODE_SERVICE) (startCmd sp cli.LAPTOP_MODE_SERVICE)
       else stopBeforeStart (cli.toggle_mode env n sp).2
         (stopCmd sp cli.LAPTOP_MODE_SERVICE) (startCmd sp cli.TABLET_MODE_SERVICE))
    ∧ (cli.default_mode env n sp).2.filter isStartCall = [] := by
  refine ⟨?_, ?_, ?_, ?_⟩
  · rw [laptop_mode_norm]
    exact ⟨0, 1, by decide, rfl, rfl⟩
  · rw [tablet_mode_norm]
    exact ⟨0, 1, by decide, rfl, rfl⟩
  · by_cases h : env statusQuery = 0
    · rw [if_pos h, toggle_mode_norm, if_pos h]
      exact ⟨1, 2, by decide, rfl, rfl⟩
    · rw [if_neg h, toggle_mode_norm, if_neg h]
      exact ⟨1, 2, by decide, rfl, rfl⟩
  · rw [default_mode_norm]
    cases n <;> rfl

/-- C2: toggle_mode issues the single tablet-service status query first
and then behaves exactly as laptop_mode when the query succeeds and
exactly as tablet_mode otherwise; the branch bodies do not depend on the
environment in any other way, so the choice depends only on the sampled
tablet-service status. -/
theorem claim_C2 (env env2 env3 : Env) (n : Bool) (sp : String) :
    cli.toggle_mode env n sp =
      ((if env statusQuery = 0 then (cli.laptop_mode env2 n sp).1
        else (cli.tablet_mode env3 n sp).1),
       statusQuery ::
         (if env statusQuery = 0 then (cli.laptop_mode env2 n sp).2
          else (cli.tablet_mode env3 n sp).2)) := by
  rw [toggle_mode_norm, laptop_mode_norm, tablet_mode_norm]
  by_cases h : env statusQuery = 0 <;> simp [h]

/-- C5: systemctl returns ok true exactly when the invoked command exits
with status 0 and ok false for every non-zero exit status; it never
propagates an exception for a non-zero exit. -/
theorem claim_C5 (env : Env) (a u : String) (r : Bool) (sp : String) :
    (cli.systemctl env a u r sp).1 =
      Except.ok (decide (env ((if r then [sp] else []) ++ ["systemctl", a, u]) = 0)) := by
  rw [systemctl_norm]
  by_cases h : env ((if r then [sp] else []) ++ ["systemctl", a, u]) = 0 <;> simp [h]

/-- C7: none of the four mode functions propagates the boolean results of
its underlying systemctl and set_osk_state calls: each returns the unit
value wrapped in ok, whatever exit statuses the environment produces. -/
theorem claim_C7 (env : Env) (n : Bool) (sp : String) :
    (cli.default_mode env n sp).1 = Except.ok ()
    ∧ (cli.laptop_mode env n sp).1 = Except.ok ()
    ∧ (cli.tablet_mode env n sp).1 = Except.ok ()
    ∧ (cli.toggle_mode env n sp).1 = Except.ok () := by
  simp [default_mode_norm, laptop_mode_norm, tablet_mode_norm, toggle_mode_norm]

/-- C9: the status query issued by toggle_mode is the unprefixed
three-element systemctl vector, while every stop and start call issued by
the four mode functions carries the sudo path as its first element. -/
theorem claim_C9 (env : Env) (n : Bool) (sp : String) :
    (cli.toggle_mode env n sp).2.head? =
      Option.some ["systemctl", "status", cli.TABLET_MODE_SERVICE]
    ∧ (cli.default_mode env n sp).2.filter isSystemctlCall =
        [stopCmd sp cli.LAPTOP_MODE_SERVICE, stopCmd sp cli.TABLET_MODE_SERVICE]
    ∧ (cli.laptop_mode env n sp).2.filter isSystemctlCall =
        [stopCmd sp cli.TABLET_MODE_SERVICE, startCmd sp cli.LAPTOP_MODE_SERVICE]
    ∧ (cli.tablet_mode env n sp).2.filter isSystemctlCall =
        [stopCmd sp cli.LAPTOP_MODE_SERVICE, startCmd sp cli.TABLET_MODE_SERVICE]
    ∧ (cli.toggle_mode env n sp).2.filter isSystemctlCall =
        statusQuery ::
          (if env statusQuery = 0
           then [stopCmd sp cli.TABLET_MODE_SERVICE, startCmd sp cli.LAPTOP_MODE_SERVICE]
           else [stopCmd sp cli.LAPTOP_MODE_SERVICE, startCmd sp cli.TABLET_MODE_SERVICE]) := by
  refine ⟨?_, ?_, ?_, ?_, ?_⟩
  · rw [toggle_mode_norm]
    rfl
  · rw [default_mode_norm]
    cases n <;> rfl
  · rw [laptop_mode_norm]
    cases n <;> rfl
  · rw [tablet_mode_norm]
    cases n <;> rfl
  · rw [toggle_mode_norm]
    by_cases h : env statusQuery = 0
    · rw [if_pos h, if_pos h]
      cases n <;> rfl
    · rw [if_neg h, if_neg h]
      cases n <;> rfl

theorem dictGet_dictSet_same (cfg : Config) (k : String) (v d : PyVal) :
    dictGet (dictSet cfg k v) k d = v := by
  simp [dictGet, dictSet]

theorem dictGet_dictSet_other (cfg : Config) (k q : String) (v d : PyVal)
    (h : q ≠ k) : dictGet (dictSet cfg k v) q d = dictGet cfg q d := by
  simp [dictGet, dictSet, h]

/-- C8: cli.main behaves exactly as it would with the configuration notify
value cleared and the CLI flag replaced by the logical OR of the
configuration notify value (defaulting to false when absent) and the CLI
flag; in particular, with the -n flag set, every dispatched mode sends its
notification regardless of the configuration. -/
theorem claim_C8 (env : Env) (cfg : Config) (m : Option String) (n : Bool) :
    cli.main env cfg ⟨m, n⟩ =
      cli.main env (dictSet cfg "notify" (PyVal.bool false))
        ⟨m, truthy (dictGet cfg "notify" (PyVal.bool false)) || n⟩
    ∧ notifyCmd "Laptop mode." "The system is now in laptop mode." ∈
        cli.traceOf (cli.main env cfg ⟨Option.some "laptop", true⟩)
    ∧ notifyCmd "Tablet mode." "The system is now in tablet mode." ∈
        cli.traceOf (cli.main env cfg ⟨Option.some "tablet", true⟩)
    ∧ notifyCmd "Default mode." "The system is now in default mode." ∈
        cli.traceOf (cli.main env cfg ⟨Option.some "default", true⟩) := by
  refine ⟨?_, ?_, ?_, ?_⟩
  · unfold cli.main
    rw [dictGet_dictSet_same, dictGet_dictSet_other cfg "notify" "sudo" _ _ (by decide)]
    simp [truthy]
  · simp [cli.main, cli.dispatchMode, cli.traceOf, laptop_mode_norm, laptopTrace,
      notifyCmd]
  · simp [cli.main, cli.dispatchMode, cli.traceOf, tablet_mode_norm, tabletTrace,
      notifyCmd]
  · simp [cli.main, cli.dispatchMode, cli.traceOf, default_mode_norm, defaultTrace,
      notifyCmd]

/-! Helper lemmas for the daemon subprocess trace. -/

theorem spawnedArgs_spawn_map (ps : List daemon.PopenHandle) :
    daemon.spawnedArgs (ps.map fun p => daemon.DEvent.spawn p.args) =
      ps.map fun p => p.args := by
  induction ps with
  | nil => rfl
  | cons a t ih =>
    simp only [List.map_cons, daemon.spawnedArgs, List.filterMap_cons] at ih ⊢
    rw [ih]

theorem spawnedArgs_wait_map (ps : List daemon.PopenHandle) :
    daemon.spawnedArgs (ps.map fun p => daemon.DEvent.wait p.args) = [] := by
  induction ps with
  | nil => rfl
  | cons a t ih =>
    simp only [List.map_cons, daemon.spawnedArgs, List.filterMap_cons] at ih ⊢
    rw [ih]

theorem waitedArgs_spawn_map (ps : List daemon.PopenHandle) :
    daemon.waitedArgs (ps.map fun p => daemon.DEvent.spawn p.args) = [] := by
  induction ps with
  | nil => rfl
  | cons a t ih =>
    simp only [List.map_cons, daemon.waitedArgs, List.filterMap_cons] at ih ⊢
    rw [ih]

theorem waitedArgs_wait_map (ps : List daemon.PopenHandle) :
    daemon.waitedArgs (ps.map fun p => daemon.DEvent.wait p.args) =
      ps.map fun p => p.args := by
  induction ps with
  | nil => rfl
  | cons a t ih =>
    simp only [List.map_cons, daemon.waitedArgs, List.filterMap_cons] at ih ⊢
    rw [ih]

theorem spawned_set_mode (cfg : Config) (mode : String) :
    daemon.spawnedArgs (daemon.set_mode cfg mode) =
      (daemon.set_osk_state mode).args ::
        (pyElems (daemon.get_devices cfg mode).1).map
          (fun d => (daemon.disable_device d).args) := by
  unfold daemon.set_mode daemon.spawnedArgs
  rw [List.filterMap_append]
  have h1 := spawnedArgs_spawn_map
    (daemon.set_osk_state mode ::
      (pyElems (daemon.get_devices cfg mode).1).map daemon.disable_device)
  have h2 := spawnedArgs_wait_map
    (daemon.set_osk_state mode ::
      (pyElems (daemon.get_devices cfg mode).1).map daemon.disable_device)
  unfold daemon.spawnedArgs at h1 h2
  rw [h1, h2, List.append_nil, List.map_cons, List.map_map]
  rfl

theorem waited_set_mode (cfg : Config) (mode : String) :
    daemon.waitedArgs (daemon.set_mode cfg mode) =
      (daemon.set_osk_state mode).args ::
        (pyElems (daemon.get_devices cfg mode).1).map
          (fun d => (daemon.disable_device d).args) := by
  unfold daemon.set_mode daemon.waitedArgs
  rw [List.filterMap_append]
  have h1 := waitedArgs_spawn_map
    (daemon.set_osk_state mode ::
      (pyElems (daemon.get_devices cfg mode).1).map daemon.disable_device)
  have h2 := waitedArgs_wait_map
    (daemon.set_osk_state mode ::
      (pyElems (daemon.get_devices cfg mode).1).map daemon.disable_device)
  unfold daemon.waitedArgs at h1 h2
  rw [h1, h2, List.nil_append, List.map_cons, List.map_map]
  rfl

theorem get_devices_elems (cfg : Config) (mode : String) (ds : List String)
    (h : cfg mode = Option.some (PyVal.list ds)) :
    pyElems (daemon.get_devices cfg mode).1 = ds := by
  unfold daemon.get_devices
  simp only [h]
  cases ds <;> rfl

/-- C3: for every configured device list, the daemon spawns exactly one
keyboard-toggle subprocess followed by one grab subprocess per configured
device, N plus one subprocesses in total, and the sequence of waited
subprocesses equals the sequence of spawned ones, so every spawned
subprocess is waited on before set_mode returns. -/
theorem claim_C3 (cfg : Config) (mode : String) (ds : List String)
    (h : cfg mode = Option.some (PyVal.list ds)) :
    daemon.spawnedArgs (daemon.set_mode cfg mode) =
      (daemon.set_osk_state mode).args ::
        ds.map (fun d => [daemon.EVTEST, "--grab", d])
    ∧ (daemon.spawnedArgs (daemon.set_mode cfg mode)).length = ds.length + 1
    ∧ daemon.waitedArgs (daemon.set_mode cfg mode) =
        daemon.spawnedArgs (daemon.set_mode cfg mode) := by
  have he := get_devices_elems cfg mode ds h
  refine ⟨?_, ?_, ?_⟩
  · rw [spawned_set_mode, he]
    rfl
  · rw [spawned_set_mode, he]
    simp
  · rw [spawned_set_mode, waited_set_mode]

/-- Witness for C3: the spec example configuration with one tablet device
spawns exactly two subprocesses, the keyboard toggle and one grab, and
waits on both. -/
theorem claim_C3_witness :
    daemon.spawnedArgs (daemon.set_mode cfgA "tablet") =
      (daemon.set_osk_state "tablet").args ::
        [["/usr/bin/evtest", "--grab", "/dev/input/event3"]]
    ∧ (daemon.spawnedArgs (daemon.set_mode cfgA "tablet")).length = 2
    ∧ daemon.waitedArgs (daemon.set_mode cfgA "tablet") =
        daemon.spawnedArgs (daemon.set_mode cfgA "tablet") :=
  claim_C3 cfgA "tablet" ["/dev/input/event3"] rfl

/-- C6: get_devices returns exactly the ordered device list that the
configuration maps to the mode key, and when the key is absent it returns
the empty sequence together with the informational log message, without
raising an error. -/
theorem claim_C6 (cfg : Config) (mode : String) :
    (∀ ds : List String, cfg mode = Option.some (PyVal.list ds) →
      pyElems (daemon.get_devices cfg mode).1 = ds)
    ∧ (cfg mode = Option.none →
      daemon.get_devices cfg mode =
        (PyVal.tuple [], Option.some "No devices configured to disable.")) := by
  refine ⟨?_, ?_⟩
  · intro ds h
    exact get_devices_elems cfg mode ds h
  · intro h
    unfold daemon.get_devices
    simp only [h]
    rfl

/-- Witness for C6: on a concrete configuration the tablet key yields its
configured device list and the absent laptop key yields the empty tuple
with the log message. -/
theorem claim_C6_witness :
    pyElems (daemon.get_devices cfgA "tablet").1 = ["/dev/input/event3"]
    ∧ daemon.get_devices cfgA "laptop" =
        (PyVal.tuple [], Option.some "No devices configured to disable.") :=
  ⟨(claim_C6 cfgA "tablet").1 ["/dev/input/event3"] rfl,
   (claim_C6 cfgA "laptop").2 rfl⟩

/-- C10: every falsy configured value for the mode key collapses to the
same empty tuple and the same informational log message as an absent key,
so callers cannot distinguish an explicitly empty device list from a
missing one. -/
theorem claim_C10 (cfg : Config) (mode : String) (v : PyVal)
    (h1 : cfg mode = Option.some v) (h2 : truthy v = false) :
    daemon.get_devices cfg mode =
      (PyVal.tuple [], Option.some "No devices configured to disable.")
    ∧ daemon.get_devices cfg mode =
        daemon.get_devices (fun _ => Option.none) mode := by
  have base : daemon.get_devices cfg mode =
      (PyVal.tuple [], Option.some "No devices configured to disable.") := by
    unfold daemon.get_devices
    simp only [h1]
    rw [h2]
    rfl
  refine ⟨base, ?_⟩
  rw [base]
  rfl

/-- Witness for C10: a configuration mapping the tablet key to an empty
list gives the same result as one where the key is absent. -/
theorem claim_C10_witness :
    daemon.get_devices cfgB "tablet" =
      (PyVal.tuple [], Option.some "No devices configured to disable.")
    ∧ daemon.get_devices cfgB "tablet" =
        daemon.get_devices (fun _ => Option.none) "tablet" :=
  claim_C10 cfgB "tablet" (PyVal.list []) rfl rfl

/-- C4, evaluated at the failing input: in the daemon entry point the
serialized boolean is not supplied as a separate value argument of the
gsettings invocation; the whole subcommand including the trailing true is
one combined argument string, so the argument vector has length two and
contains no element equal to the string true, while the cli entry point
does pass the boolean as its own final argument. -/
theorem claim_C4_bug :
    daemon.set_osk_state "tablet" =
      ⟨["/usr/bin/gsettings",
        "set org.gnome.desktop.a11y.applications screen-keyboard-enabled true"]⟩
    ∧ (daemon.set_osk_state "tablet").args.contains "true" = false
    ∧ (daemon.set_osk_state "tablet").args.length = 2
    ∧ (cli.set_osk_state (fun _ => 0) true).2 =
        [["/usr/bin/gsettings", "set", "org.gnome.desktop.a11y.applications",
          "screen-keyboard-enabled", "true"]] := by
  refine ⟨?_, ?_, ?_, ?_⟩ <;> rfl

end Tabletmode
